import Mathlib

/-!
Shallow embedding of the RTABuilder image-build pipeline
(`src/iso_building_utils.py` and `rta_builder_app.py`).

External effects (subprocesses, the mounted filesystem, the download) are
modelled by environment records supplying their outcomes; the Python
control flow is translated function by function.  The cooperative
cancellation flag `stop_requested` is modelled as a boolean stream
`stop : Nat -> Bool` giving the value the flag has at the k-th poll the
running code performs (polls are numbered in program order).
-/

namespace RTABuilder

/-- Python `str.lower()` restricted to the character-wise lowering used here. -/
def pyLower (s : String) : String :=
  String.mk (s.data.map Char.toLower)

def charsHavePre : List Char → List Char → Bool
  | [], _ => true
  | _ :: _, [] => false
  | a :: as, b :: bs => a == b && charsHavePre as bs

def charsContain (needle : List Char) : List Char → Bool
  | [] => charsHavePre needle []
  | b :: bs => charsHavePre needle (b :: bs) || charsContain needle bs

/-- Python `needle in hay` on strings (substring containment). -/
def strContains (hay needle : String) : Bool :=
  charsContain needle.data hay.data

/-- Python `str.strip()`: drop whitespace from both ends. -/
def pyStrip (s : String) : String :=
  String.mk (((s.data.dropWhile Char.isWhitespace).reverse.dropWhile
    Char.isWhitespace).reverse)

/-- `os.path.join(a, b, c)` as produced on the Windows host this code targets. -/
def pyJoin3 (a b c : String) : String :=
  a ++ "\\" ++ b ++ "\\" ++ c

/-- The monitored-subprocess read loop shared by `_extract_with_7zip`,
`_create_iso_with_oscdimg` and `_create_iso_with_powershell`:
`for line in process.stdout: if self.stop_requested: process.terminate(); return False`.
Given the stdout lines and the index of the next poll, it returns
(completed?, polls consumed so far, poll indices at which a line was processed);
`completed? = false` means the stop flag was observed and the process terminated. -/
def monitorProcess (stop : Nat → Bool) : List String → Nat → Bool × Nat × List Nat
  | [], polls => (true, polls, [])
  | _ :: rest, polls =>
    if stop polls then (false, polls + 1, [])
    else
      let r := monitorProcess stop rest (polls + 1)
      (r.1, r.2.1, polls :: r.2.2)

/-! ## Extraction strategy: `_extract_with_7zip` -/

/-- Environment for one run of `_extract_with_7zip`: whether an exception is
raised before the read loop (`os.makedirs`/`Popen` failure), the subprocess's
stdout lines and exit code, the captured stderr text, and the stop-flag stream. -/
structure SevenZipEnv where
  raise0 : Bool
  lines : List String
  exitCode : Int
  errText : String
  stop : Nat → Bool

structure SevenZipResult where
  ret : Bool
  terminated : Bool
  processedAt : List Nat
  polls : Nat
  errorLog : Option String

/-- `_extract_with_7zip`: the whole body is wrapped in
`try ... except Exception: log; return False`; inside, stdout is read
line-by-line polling the stop flag, and exit code 0 decides success. -/
def extractWith7zip (env : SevenZipEnv) : SevenZipResult :=
  if env.raise0 then
    { ret := false, terminated := false, processedAt := [], polls := 0,
      errorLog := some "Error extracting with 7-Zip" }
  else
    let m := monitorProcess env.stop env.lines 0
    if m.1 = false then
      { ret := false, terminated := true, processedAt := m.2.2, polls := m.2.1,
        errorLog := none }
    else if env.exitCode == 0 then
      { ret := true, terminated := false, processedAt := m.2.2, polls := m.2.1,
        errorLog := none }
    else
      { ret := false, terminated := false, processedAt := m.2.2, polls := m.2.1,
        errorLog := some ("7-Zip extraction failed: " ++ env.errText) }

/-! ## Extraction strategy: `_extract_with_windows_mount` -/

/-- Environment for one run of `_extract_with_windows_mount`: whether the
`Mount-DiskImage` subprocess raises `SubprocessError`, its stdout (stripped to
obtain the drive letter), the `os.walk` result as per-directory lists of
per-file `shutil.copy2` outcomes (`true` = the copy succeeds), and the
stop-flag stream. -/
structure MountEnv where
  mountProcFails : Bool
  mountStdout : String
  dirs : List (List Bool)
  stop : Nat → Bool

/-- `total_files = sum(len(files) for _, _, files in os.walk(source_path))`. -/
def totalFilesOf (dirs : List (List Bool)) : Nat :=
  (dirs.map List.length).sum

/-- `int((copied_files / total_files) * 100) if total_files > 0 else 0`
(exact arithmetic; the quotient is truncated as Python `int` does). -/
def pyProgress (copied total : Nat) : Nat :=
  if 0 < total then copied * 100 / total else 0

/-- Running state of the copy loop of `_extract_with_windows_mount`. -/
structure WalkSt where
  polls : Nat
  copied : Nat
  attempted : List Nat
  progressEvents : List (Nat × Nat)
  copyErrors : Nat

/-- One attempted `shutil.copy2` after its stop poll passed: success
increments `copied_files` and emits a progress event exactly when
`copied_files % 100 == 0 or copied_files == total_files`
(`self.log(..., progress)`); an exception is logged
(`self.log(f"Error copying ...")`) and skipped. -/
def copyStep (total : Nat) (ok : Bool) (st : WalkSt) : WalkSt :=
  let st1 : WalkSt :=
    { st with polls := st.polls + 1, attempted := st.attempted ++ [st.polls] }
  if ok then
    let c := st1.copied + 1
    if c % 100 == 0 || c == total then
      { st1 with copied := c,
                 progressEvents := st1.progressEvents ++ [(c, pyProgress c total)] }
    else
      { st1 with copied := c }
  else
    { st1 with copyErrors := st1.copyErrors + 1 }

/-- Inner file loop: before each file the stop flag is polled
(`if self.stop_requested: return False`), then the copy is attempted. -/
def copyFiles (stop : Nat → Bool) (total : Nat) : List Bool → WalkSt → WalkSt × Bool
  | [], st => (st, true)
  | ok :: rest, st =>
    if stop st.polls then ({ st with polls := st.polls + 1 }, false)
    else copyFiles stop total rest (copyStep total ok st)

/-- Outer directory loop of `_extract_with_windows_mount`: before each
directory the stop flag is polled, then the directory is created and its
files copied. -/
def walkCopy (stop : Nat → Bool) (total : Nat) : List (List Bool) → WalkSt → WalkSt × Bool
  | [], st => (st, true)
  | files :: rest, st =>
    if stop st.polls then ({ st with polls := st.polls + 1 }, false)
    else
      let r := copyFiles stop total files { st with polls := st.polls + 1 }
      if r.2 then walkCopy stop total rest r.1 else (r.1, false)

structure MountExtractResult where
  ret : Bool
  mounted : Bool
  unmountsIssued : Nat
  copied : Nat
  attempted : List Nat
  progressEvents : List (Nat × Nat)
  copyErrors : Nat
  polls : Nat
  errorLog : Option String

def walkInit : WalkSt :=
  { polls := 0, copied := 0, attempted := [], progressEvents := [], copyErrors := 0 }

/-- `_extract_with_windows_mount`: mount via PowerShell (a `SubprocessError`
is caught and yields `False` with no drive letter bound, so the `finally`
block issues no unmount; an empty drive letter raises into the outer
`except`, again with no unmount since `drive_letter` is the falsy `""`);
on success the file tree is copied with cancellation polls, and the
`finally` block issues exactly one `Dismount-DiskImage` because
`drive_letter` is a non-empty string on every exit path of the copy. -/
def extractWithWindowsMount (env : MountEnv) : MountExtractResult :=
  if env.mountProcFails then
    { ret := false, mounted := false, unmountsIssued := 0, copied := 0,
      attempted := [], progressEvents := [], copyErrors := 0, polls := 0,
      errorLog := some "Failed to mount ISO using PowerShell" }
  else
    let driveLetter := pyStrip env.mountStdout
    if driveLetter.data.isEmpty then
      { ret := false, mounted := false, unmountsIssued := 0, copied := 0,
        attempted := [], progressEvents := [], copyErrors := 0, polls := 0,
        errorLog :=
          some "Error extracting with Windows mount: Failed to get drive letter for mounted ISO" }
    else
      let total := totalFilesOf env.dirs
      let r := walkCopy env.stop total env.dirs walkInit
      { ret := r.2, mounted := true, unmountsIssued := 1, copied := r.1.copied,
        attempted := r.1.attempted, progressEvents := r.1.progressEvents,
        copyErrors := r.1.copyErrors, polls := r.1.polls, errorLog := none }

/-- `extract_iso`: strategy selection — 7-Zip when the prober finds it,
otherwise the Windows mount-and-copy strategy. -/
inductive ExtStrategy
  | sevenZip
  | windowsMount
deriving DecidableEq

structure ExtractSelectEnv where
  sevenZipFound : Bool
  sz : SevenZipEnv
  wm : MountEnv

def extractIso (env : ExtractSelectEnv) : Bool × ExtStrategy :=
  if env.sevenZipFound then ((extractWith7zip env.sz).ret, ExtStrategy.sevenZip)
  else ((extractWithWindowsMount env.wm).ret, ExtStrategy.windowsMount)

/-! ## Creation strategy: `_create_iso_with_oscdimg` command line -/

/-- The candidate boot files probed under `source_dir/boot`, in source order. -/
def bootFileNames : List String :=
  ["etfsboot.com", "efisys.bin"]

def bootArgsGo (sourceDir : String) (bootFileFound : String → Bool) :
    List String → List String
  | [] => []
  | f :: rest =>
    if bootFileFound f then
      ["-b", pyJoin3 sourceDir "boot" f]
        ++ (if strContains (pyLower f) "efi" then ["-e", "-u1"] else [])
    else bootArgsGo sourceDir bootFileFound rest

/-- The `boot_args` accumulated by `_create_iso_with_oscdimg`: the first
existing candidate contributes `-b <path>` (plus `-e -u1` when its lowered
name contains `"efi"`) and the loop `break`s. -/
def oscdimgBootArgs (sourceDir : String) (bootFileFound : String → Bool) : List String :=
  bootArgsGo sourceDir bootFileFound bootFileNames

/-- The full oscdimg command line:
`[oscdimg_path, '-m', '-o', '-u2', '-l'+volume_label] + boot_args + [source_dir, output_iso]`. -/
def oscdimgCmd (oscdimgPath sourceDir outputIso volumeLabel : String)
    (bootFileFound : String → Bool) : List String :=
  [oscdimgPath, "-m", "-o", "-u2", "-l" ++ volumeLabel]
    ++ oscdimgBootArgs sourceDir bootFileFound
    ++ [sourceDir, outputIso]

/-! ## Creation cascade: `create_iso` and its three tiers -/

inductive CreateTier
  | oscdimg
  | powershell
  | basic
deriving DecidableEq

/-- Environment for one `create_iso` call: whether the prober finds oscdimg,
one stop-flag stream polled in program order across the tiers that run, and
for each tier the outcome of its external effects (an internal exception,
the subprocess stdout lines and exit code, and for the raw-archive tier the
number of files walked into the archive). -/
structure CreateEnv where
  oscdimgFound : Bool
  stop : Nat → Bool
  oscRaise : Bool
  oscLines : List String
  oscExit : Int
  psRaise : Bool
  psLines : List String
  psExit : Int
  basicRaise : Bool
  basicFileCount : Nat

/-- The archive loop of `_create_basic_iso`: one stop poll per file written
(`if self.stop_requested: return False`). -/
def basicLoop (stop : Nat → Bool) : Nat → Nat → Bool
  | 0, _ => true
  | n + 1, polls => if stop polls then false else basicLoop stop n (polls + 1)

/-- `_create_basic_iso`: any exception in the zip/rename body yields `False`;
otherwise the archive loop runs to completion unless cancelled. -/
def createBasic (env : CreateEnv) (basePolls : Nat) : Bool :=
  if env.basicRaise then false
  else basicLoop env.stop env.basicFileCount basePolls

/-- `_create_iso_with_oscdimg` outcome: exceptions yield `False`; the
monitored subprocess is terminated on cancellation (`False`); exit code 0
decides success.  It never invokes another tier. -/
def createOscdimg (env : CreateEnv) : Bool :=
  if env.oscRaise then false
  else
    let m := monitorProcess env.stop env.oscLines 0
    if m.1 = false then false
    else if env.oscExit == 0 then true
    else false

/-- `_create_iso_with_powershell` outcome and the tiers it runs: an exception
in its body falls through to `_create_basic_iso`, as does a non-zero exit of
the PowerShell subprocess; cancellation during the monitored read terminates
the process and returns `False` with no further tier. -/
def createPowershell (env : CreateEnv) : Bool × List CreateTier :=
  if env.psRaise then
    (createBasic env 0, [CreateTier.powershell, CreateTier.basic])
  else
    let m := monitorProcess env.stop env.psLines 0
    if m.1 = false then (false, [CreateTier.powershell])
    else if env.psExit == 0 then (true, [CreateTier.powershell])
    else (createBasic env m.2.1, [CreateTier.powershell, CreateTier.basic])

structure CreateResult where
  ret : Bool
  tiers : List CreateTier
deriving DecidableEq

/-- `create_iso`: when the prober finds oscdimg, the oscdimg tier runs and
its result is returned directly; only when oscdimg is absent does the
PowerShell tier (with its raw-archive fallback) run. -/
def createIso (env : CreateEnv) : CreateResult :=
  if env.oscdimgFound then
    { ret := createOscdimg env, tiers := [CreateTier.oscdimg] }
  else
    let r := createPowershell env
    { ret := r.1, tiers := r.2 }

/-! ## Build controller: `_build_thread` of `rta_builder_app.py` -/

/-- The `steps` weight table of `_build_thread`. -/
def buildSteps : List (String × Nat) :=
  [("extract_iso", 20), ("copy_tools", 10), ("customize", 10),
   ("rebuild_iso", 50), ("cleanup", 10)]

def stepWeight (name : String) : Nat :=
  (buildSteps.lookup name).getD 0

/-- A dialog reported to the user at the end of `_build_thread`. -/
inductive Report
  | infoDialog (title msg : String)
  | errorDialog (title msg : String)
deriving DecidableEq

def reportHasError : Report → Bool
  | Report.infoDialog _ _ => false
  | Report.errorDialog _ _ => true

/-- The `except` handler of `_build_thread`:
`messagebox.showerror("Build Failed", f"Failed to build custom ISO: {e}")`. -/
def buildFailReport (m : String) : Report :=
  Report.errorDialog "Build Failed" ("Failed to build custom ISO: " ++ m)

structure BuildOutcome where
  report : Report
  updates : List Nat
  stopObserved : Bool
deriving DecidableEq

/-- The simulated `_extract_iso` of the app: five iterations, each polling
`self.stop_build` and returning `False` when it is set.  Returns the
completion flag and the polls consumed. -/
def simLoop (stop : Nat → Bool) : Nat → Nat → Bool × Nat
  | 0, polls => (true, polls)
  | n + 1, polls =>
    if stop polls then (false, polls + 1) else simLoop stop n (polls + 1)

/-- The simulated `_rebuild_iso`: ten iterations, each polling the flag and
then emitting `update_progress(50 + i * 5)`. -/
def rebuildLoop (stop : Nat → Bool) : Nat → Nat → Nat → Bool × Nat × List Nat
  | 0, _, polls => (true, polls, [])
  | n + 1, i, polls =>
    if stop polls then (false, polls + 1, [])
    else
      let r := rebuildLoop stop n (i + 1) (polls + 1)
      (r.1, r.2.1, (50 + i * 5) :: r.2.2)

/-- `_build_thread`: the linear stage sequence with its progress updates and
inter-stage stop checks, ending in either the success dialog or the
`except`-handler error dialog.  Poll indices number, in program order, the
five polls inside `_extract_iso`, the three inter-stage `if self.stop_build`
checks, and the ten polls inside `_rebuild_iso`. -/
def buildThread (stop : Nat → Bool) : BuildOutcome :=
  let u0 : List Nat := [0]
  let ex := simLoop stop 5 0
  if ex.1 = false then
    { report := buildFailReport "Failed to extract ISO", updates := u0,
      stopObserved := true }
  else if stop ex.2 then
    { report := buildFailReport "Build process stopped by user", updates := u0,
      stopObserved := true }
  else
    let c1 := 0 + stepWeight "extract_iso"
    let u1 := u0 ++ [c1]
    if stop (ex.2 + 1) then
      { report := buildFailReport "Build process stopped by user", updates := u1,
        stopObserved := true }
    else
      let c2 := c1 + stepWeight "copy_tools"
      let u2 := u1 ++ [c2]
      if stop (ex.2 + 2) then
        { report := buildFailReport "Build process stopped by user", updates := u2,
          stopObserved := true }
      else
        let c3 := c2 + stepWeight "customize"
        let u3 := u2 ++ [c3]
        let rb := rebuildLoop stop 10 0 (ex.2 + 3)
        if rb.1 = false then
          { report := buildFailReport "Failed to rebuild ISO",
            updates := u3 ++ rb.2.2, stopObserved := true }
        else
          let c4 := c3 + stepWeight "rebuild_iso"
          let u4 := u3 ++ rb.2.2 ++ [c4]
          let u5 := u4 ++ [100]
          { report := Report.infoDialog "Build Complete"
              "Custom Kali ISO created successfully",
            updates := u5, stopObserved := false }

/-- The progress values `update_progress` receives over one successful,
uncancelled build. -/
def buildTrace : List Nat :=
  (buildThread (fun _ => false)).updates

/-- Whether a list of progress values is monotonically non-decreasing. -/
def nonDecr : List Nat → Bool
  | [] => true
  | [_] => true
  | a :: b :: rest => Nat.ble a b && nonDecr (b :: rest)

/-! ## `download_file` -/

/-- Environment for one `download_file` call: whether `urlretrieve` completes
(`urlOk`), whether the stop flag is observed inside the progress hook (which
raises out of `urlretrieve`), and whether a partly written file exists at the
destination when an exception escapes. -/
structure DlEnv where
  urlOk : Bool
  stopDuringHook : Bool
  leftoverWritten : Bool

structure DlResult where
  ret : Bool
  destLeftover : Bool
deriving DecidableEq

/-- `download_file`: success returns `True` with the file in place; any
exception (including the cancellation raised by the hook) is caught, the
destination is unlinked when it exists, and `False` is returned. -/
def downloadFile (env : DlEnv) : DlResult :=
  if env.stopDuringHook = false && env.urlOk = true then
    { ret := true, destLeftover := true }
  else
    let destAfter := env.leftoverWritten
    let destAfterCleanup := if destAfter then false else destAfter
    { ret := false, destLeftover := destAfterCleanup }

/-! ## Concrete environments used to instantiate the theorems below -/

/-- oscdimg present, its subprocess exits with code 137, nothing cancelled. -/
def c1CounterEnv : CreateEnv :=
  { oscdimgFound := true, stop := fun _ => false, oscRaise := false,
    oscLines := [], oscExit := 137, psRaise := false, psLines := [],
    psExit := 0, basicRaise := false, basicFileCount := 0 }

/-- oscdimg present, its subprocess exits with code 0. -/
def c1WitnessEnv : CreateEnv :=
  { oscdimgFound := true, stop := fun _ => false, oscRaise := false,
    oscLines := [], oscExit := 0, psRaise := false, psLines := [],
    psExit := 0, basicRaise := false, basicFileCount := 0 }

/-- A mount-and-copy run that mounts successfully and is never cancelled. -/
def c3WitnessEnv : MountEnv :=
  { mountProcFails := false, mountStdout := " E ", dirs := [[true, false], [true]],
    stop := fun _ => false }

/-- A 7-Zip run whose stop flag is already set at the first line poll. -/
def c4WitnessSzEnv : SevenZipEnv :=
  { raise0 := false, lines := ["x"], exitCode := 0, errText := "",
    stop := fun _ => true }

/-- A mounted run whose stop flag is already set at the first poll. -/
def c4WitnessWmEnv : MountEnv :=
  { mountProcFails := false, mountStdout := "E", dirs := [[true]],
    stop := fun _ => true }

/-- 7-Zip absent: the selector must pick mount-and-copy. -/
def c5CounterExtractEnv : ExtractSelectEnv :=
  { sevenZipFound := false,
    sz := { raise0 := false, lines := [], exitCode := 0, errText := "",
            stop := fun _ => false },
    wm := { mountProcFails := false, mountStdout := "E", dirs := [[true]],
            stop := fun _ => false } }

/-- oscdimg absent, PowerShell authoring succeeds (exit 0). -/
def c5CounterCreateEnv : CreateEnv :=
  { oscdimgFound := false, stop := fun _ => false, oscRaise := false,
    oscLines := [], oscExit := 0, psRaise := false, psLines := [],
    psExit := 0, basicRaise := false, basicFileCount := 0 }

/-- A 7-Zip run that completes with a non-zero exit code. -/
def c7WitnessSzEnv : SevenZipEnv :=
  { raise0 := false, lines := ["line"], exitCode := 2, errText := "boom",
    stop := fun _ => false }

/-- A mount-and-copy run whose mount subprocess raises. -/
def c7WitnessWmEnv : MountEnv :=
  { mountProcFails := true, mountStdout := "", dirs := [], stop := fun _ => false }

/-- Three files over two directories, all copies succeed, never cancelled. -/
def c8WitnessEnv : MountEnv :=
  { mountProcFails := false, mountStdout := "E", dirs := [[true, true], [true]],
    stop := fun _ => false }

/-- A probe reporting only `efisys.bin` under `boot/`. -/
def c9WitnessBootFound : String → Bool :=
  fun f => f == "efisys.bin"

/-- A download cancelled from inside the progress hook after a part of the
file was written. -/
def c10WitnessEnv : DlEnv :=
  { urlOk := true, stopDuringHook := true, leftoverWritten := true }

/-! ## Lemmas about the monitored read loop -/

theorem monitor_processed_stop_false (stop : Nat → Bool) :
    ∀ (lines : List String) (polls : Nat),
      ∀ k ∈ (monitorProcess stop lines polls).2.2, stop k = false := by
  intro lines
  induction lines with
  | nil =>
    intro polls k hk
    simp [monitorProcess] at hk
  | cons l rest ih =>
    intro polls k hk
    cases hs : stop polls with
    | true => simp [monitorProcess, hs] at hk
    | false =>
      simp only [monitorProcess, hs] at hk
      simp only [Bool.false_eq_true, if_false, List.mem_cons] at hk
      rcases hk with rfl | hk
      · exact hs
      · exact ih (polls + 1) k hk

theorem monitor_completed_stop_false (stop : Nat → Bool) :
    ∀ (lines : List String) (polls : Nat),
      (∀ k, k < polls → stop k = false) →
      (monitorProcess stop lines polls).1 = true →
      ∀ k, k < (monitorProcess stop lines polls).2.1 → stop k = false := by
  intro lines
  induction lines with
  | nil =>
    intro polls h _ k hk
    simp only [monitorProcess] at hk
    exact h k hk
  | cons l rest ih =>
    intro polls h hc k hk
    cases hs : stop polls with
    | true => simp [monitorProcess, hs] at hc
    | false =>
      simp only [monitorProcess, hs, Bool.false_eq_true, if_false] at hc hk
      refine ih (polls + 1) ?_ hc k hk
      intro j hj
      rcases Nat.lt_succ_iff_lt_or_eq.mp hj with h1 | rfl
      · exact h j h1
      · exact hs

/-! ## Lemmas about one copy step -/

theorem copyStep_attempted (total : Nat) (ok : Bool) (st : WalkSt) :
    (copyStep total ok st).attempted = st.attempted ++ [st.polls] := by
  unfold copyStep
  dsimp only
  split
  · split <;> rfl
  · rfl

theorem copyStep_polls (total : Nat) (ok : Bool) (st : WalkSt) :
    (copyStep total ok st).polls = st.polls + 1 := by
  unfold copyStep
  dsimp only
  split
  · split <;> rfl
  · rfl

theorem copyStep_copied_add_errors (total : Nat) (ok : Bool) (st : WalkSt) :
    (copyStep total ok st).copied + (copyStep total ok st).copyErrors
      = st.copied + st.copyErrors + 1 := by
  unfold copyStep
  dsimp only
  split
  · split <;> simp <;> omega
  · simp
    omega

theorem copyStep_copied (total : Nat) (ok : Bool) (st : WalkSt) :
    (copyStep total ok st).copied = st.copied + (if ok then 1 else 0) := by
  unfold copyStep
  dsimp only
  cases ok
  · simp
  · cases hcond : ((st.copied + 1) % 100 == 0 || st.copied + 1 == total) <;>
      simp [hcond]

theorem copyStep_progressEvents (total : Nat) (ok : Bool) (st : WalkSt) :
    (copyStep total ok st).progressEvents
      = st.progressEvents ++
          (if ok && ((st.copied + 1) % 100 == 0 || st.copied + 1 == total) then
            [(st.copied + 1, pyProgress (st.copied + 1) total)]
          else []) := by
  unfold copyStep
  dsimp only
  cases ok
  · simp
  · cases hcond : ((st.copied + 1) % 100 == 0 || st.copied + 1 == total) <;>
      simp [hcond]

/-- Soundness of emitted events is preserved by one copy step. -/
theorem copyStep_events_sound (total : Nat) (ok : Bool) (st : WalkSt)
    (h : ∀ ce ∈ st.progressEvents,
      ce.2 = pyProgress ce.1 total ∧ (ce.1 % 100 = 0 ∨ ce.1 = total)) :
    ∀ ce ∈ (copyStep total ok st).progressEvents,
      ce.2 = pyProgress ce.1 total ∧ (ce.1 % 100 = 0 ∨ ce.1 = total) := by
  intro ce hce
  rw [copyStep_progressEvents] at hce
  rcases List.mem_append.mp hce with hce | hce
  · exact h ce hce
  · rcases hcond : (ok && ((st.copied + 1) % 100 == 0 || st.copied + 1 == total))
        with _ | _
    · rw [hcond] at hce
      simp at hce
    · rw [hcond] at hce
      simp only [if_true, List.mem_singleton] at hce
      subst hce
      refine ⟨rfl, ?_⟩
      have := (Bool.and_eq_true _ _).mp hcond
      simpa using this.2

/-- Completeness of emitted events is preserved by one copy step. -/
theorem copyStep_events_complete (total : Nat) (ok : Bool) (st : WalkSt)
    (h : ∀ c, 1 ≤ c → c ≤ st.copied → (c % 100 = 0 ∨ c = total) →
      (c, pyProgress c total) ∈ st.progressEvents) :
    ∀ c, 1 ≤ c → c ≤ (copyStep total ok st).copied → (c % 100 = 0 ∨ c = total) →
      (c, pyProgress c total) ∈ (copyStep total ok st).progressEvents := by
  intro c h1 h2 h3
  rw [copyStep_copied] at h2
  rw [copyStep_progressEvents]
  cases ok with
  | false =>
    simp only [Bool.false_eq_true, if_false, Nat.add_zero] at h2
    exact List.mem_append_left _ (h c h1 h2 h3)
  | true =>
    simp only [if_true] at h2
    rcases Nat.lt_succ_iff_lt_or_eq.mp (Nat.lt_succ_of_le h2) with hlt | rfl
    · exact List.mem_append_left _ (h c h1 (Nat.lt_succ_iff.mp hlt) h3)
    · refine List.mem_append_right _ ?_
      have hcond : (true && ((st.copied + 1) % 100 == 0 || st.copied + 1 == total)) = true := by
        simpa using h3
      rw [hcond]
      simp

/-! ## Lemmas about the copy loops -/

theorem copyFiles_attempted_stop_false (stop : Nat → Bool) (total : Nat) :
    ∀ (files : List Bool) (st : WalkSt),
      (∀ k ∈ st.attempted, stop k = false) →
      ∀ k ∈ (copyFiles stop total files st).1.attempted, stop k = false := by
  intro files
  induction files with
  | nil =>
    intro st h k hk
    simp only [copyFiles] at hk
    exact h k hk
  | cons ok rest ih =>
    intro st h k hk
    cases hs : stop st.polls with
    | true =>
      simp only [copyFiles, hs, if_true] at hk
      exact h k hk
    | false =>
      simp only [copyFiles, hs, Bool.false_eq_true, if_false] at hk
      refine ih (copyStep total ok st) ?_ k hk
      intro j hj
      rw [copyStep_attempted] at hj
      rcases List.mem_append.mp hj with hj | hj
      · exact h j hj
      · rcases List.mem_singleton.mp hj with rfl
        exact hs

theorem copyFiles_completed_stop_false (stop : Nat → Bool) (total : Nat) :
    ∀ (files : List Bool) (st : WalkSt),
      (∀ k, k < st.polls → stop k = false) →
      (copyFiles stop total files st).2 = true →
      ∀ k, k < (copyFiles stop total files st).1.polls → stop k = false := by
  intro files
  induction files with
  | nil =>
    intro st h _ k hk
    simp only [copyFiles] at hk
    exact h k hk
  | cons ok rest ih =>
    intro st h hc k hk
    cases hs : stop st.polls with
    | true => simp [copyFiles, hs] at hc
    | false =>
      simp only [copyFiles, hs, Bool.false_eq_true, if_false] at hc hk
      refine ih (copyStep total ok st) ?_ hc k hk
      intro j hj
      rw [copyStep_polls] at hj
      rcases Nat.lt_succ_iff_lt_or_eq.mp hj with h1 | rfl
      · exact h j h1
      · exact hs

theorem copyFiles_events_sound (stop : Nat → Bool) (total : Nat) :
    ∀ (files : List Bool) (st : WalkSt),
      (∀ ce ∈ st.progressEvents,
        ce.2 = pyProgress ce.1 total ∧ (ce.1 % 100 = 0 ∨ ce.1 = total)) →
      ∀ ce ∈ (copyFiles stop total files st).1.progressEvents,
        ce.2 = pyProgress ce.1 total ∧ (ce.1 % 100 = 0 ∨ ce.1 = total) := by
  intro files
  induction files with
  | nil =>
    intro st h ce hce
    simp only [copyFiles] at hce
    exact h ce hce
  | cons ok rest ih =>
    intro st h ce hce
    cases hs : stop st.polls with
    | true =>
      simp only [copyFiles, hs, if_true] at hce
      exact h ce hce
    | false =>
      simp only [copyFiles, hs, Bool.false_eq_true, if_false] at hce
      exact ih (copyStep total ok st) (copyStep_events_sound total ok st h) ce hce

theorem copyFiles_events_complete (stop : Nat → Bool) (total : Nat) :
    ∀ (files : List Bool) (st : WalkSt),
      (∀ c, 1 ≤ c → c ≤ st.copied → (c % 100 = 0 ∨ c = total) →
        (c, pyProgress c total) ∈ st.progressEvents) →
      ∀ c, 1 ≤ c → c ≤ (copyFiles stop total files st).1.copied →
        (c % 100 = 0 ∨ c = total) →
        (c, pyProgress c total) ∈ (copyFiles stop total files st).1.progressEvents := by
  intro files
  induction files with
  | nil =>
    intro st h c h1 h2 h3
    simp only [copyFiles] at h2 ⊢
    exact h c h1 h2 h3
  | cons ok rest ih =>
    intro st h c h1 h2 h3
    cases hs : stop st.polls with
    | true =>
      simp only [copyFiles, hs, if_true] at h2 ⊢
      exact h c h1 h2 h3
    | false =>
      simp only [copyFiles, hs, Bool.false_eq_true, if_false] at h2 ⊢
      exact ih (copyStep total ok st) (copyStep_events_complete total ok st h) c h1 h2 h3

theorem copyFiles_no_stop (stop : Nat → Bool) (total : Nat)
    (hstop : ∀ k, stop k = false) :
    ∀ (files : List Bool) (st : WalkSt),
      (copyFiles stop total files st).2 = true
      ∧ (copyFiles stop total files st).1.copied
          + (copyFiles stop total files st).1.copyErrors
        = st.copied + st.copyErrors + files.length := by
  intro files
  induction files with
  | nil =>
    intro st
    simp [copyFiles]
  | cons ok rest ih =>
    intro st
    simp only [copyFiles, hstop st.polls, Bool.false_eq_true, if_false]
    refine ⟨(ih (copyStep total ok st)).1, ?_⟩
    have h2 := (ih (copyStep total ok st)).2
    rw [h2, copyStep_copied_add_errors]
    simp [List.length_cons]
    omega

theorem walkCopy_attempted_stop_false (stop : Nat → Bool) (total : Nat) :
    ∀ (dirs : List (List Bool)) (st : WalkSt),
      (∀ k ∈ st.attempted, stop k = false) →
      ∀ k ∈ (walkCopy stop total dirs st).1.attempted, stop k = false := by
  intro dirs
  induction dirs with
  | nil =>
    intro st h k hk
    simp only [walkCopy] at hk
    exact h k hk
  | cons files rest ih =>
    intro st h k hk
    cases hs : stop st.polls with
    | true =>
      simp only [walkCopy, hs, if_true] at hk
      exact h k hk
    | false =>
      simp only [walkCopy, hs, Bool.false_eq_true, if_false] at hk
      have hinner : ∀ j ∈ (copyFiles stop total files
          { st with polls := st.polls + 1 }).1.attempted, stop j = false := by
        refine copyFiles_attempted_stop_false stop total files _ ?_
        intro j hj
        exact h j hj
      rcases hcont : (copyFiles stop total files { st with polls := st.polls + 1 }).2 with _ | _
      · rw [hcont] at hk
        simp only [Bool.false_eq_true, if_false] at hk
        exact hinner k hk
      · rw [hcont] at hk
        simp only [if_true] at hk
        exact ih _ hinner k hk

theorem walkCopy_completed_stop_false (stop : Nat → Bool) (total : Nat) :
    ∀ (dirs : List (List Bool)) (st : WalkSt),
      (∀ k, k < st.polls → stop k = false) →
      (walkCopy stop total dirs st).2 = true →
      ∀ k, k < (walkCopy stop total dirs st).1.polls → stop k = false := by
  intro dirs
  induction dirs with
  | nil =>
    intro st h _ k hk
    simp only [walkCopy] at hk
    exact h k hk
  | cons files rest ih =>
    intro st h hc k hk
    cases hs : stop st.polls with
    | true => simp [walkCopy, hs] at hc
    | false =>
      simp only [walkCopy, hs, Bool.false_eq_true, if_false] at hc hk
      have hbase : ∀ j, j < ({ st with polls := st.polls + 1 } : WalkSt).polls →
          stop j = false := by
        intro j hj
        simp only at hj
        rcases Nat.lt_succ_iff_lt_or_eq.mp hj with h1 | rfl
        · exact h j h1
        · exact hs
      rcases hcont : (copyFiles stop total files { st with polls := st.polls + 1 }).2
          with _ | _
      · rw [hcont] at hc
        simp at hc
      · rw [hcont] at hc hk
        simp only [if_true] at hc hk
        exact ih _ (copyFiles_completed_stop_false stop total files _ hbase hcont) hc k hk

theorem walkCopy_events_sound (stop : Nat → Bool) (total : Nat) :
    ∀ (dirs : List (List Bool)) (st : WalkSt),
      (∀ ce ∈ st.progressEvents,
        ce.2 = pyProgress ce.1 total ∧ (ce.1 % 100 = 0 ∨ ce.1 = total)) →
      ∀ ce ∈ (walkCopy stop total dirs st).1.progressEvents,
        ce.2 = pyProgress ce.1 total ∧ (ce.1 % 100 = 0 ∨ ce.1 = total) := by
  intro dirs
  induction dirs with
  | nil =>
    intro st h ce hce
    simp only [walkCopy] at hce
    exact h ce hce
  | cons files rest ih =>
    intro st h ce hce
    cases hs : stop st.polls with
    | true =>
      simp only [walkCopy, hs, if_true] at hce
      exact h ce hce
    | false =>
      simp only [walkCopy, hs, Bool.false_eq_true, if_false] at hce
      have hinner := copyFiles_events_sound stop total files
        ({ st with polls := st.polls + 1 }) h
      rcases hcont : (copyFiles stop total files { st with polls := st.polls + 1 }).2
          with _ | _
      · rw [hcont] at hce
        simp only [Bool.false_eq_true, if_false] at hce
        exact hinner ce hce
      · rw [hcont] at hce
        simp only [if_true] at hce
        exact ih _ hinner ce hce

theorem walkCopy_events_complete (stop : Nat → Bool) (total : Nat) :
    ∀ (dirs : List (List Bool)) (st : WalkSt),
      (∀ c, 1 ≤ c → c ≤ st.copied → (c % 100 = 0 ∨ c = total) →
        (c, pyProgress c total) ∈ st.progressEvents) →
      ∀ c, 1 ≤ c → c ≤ (walkCopy stop total dirs st).1.copied →
        (c % 100 = 0 ∨ c = total) →
        (c, pyProgress c total) ∈ (walkCopy stop total dirs st).1.progressEvents := by
  intro dirs
  induction dirs with
  | nil =>
    intro st h c h1 h2 h3
    simp only [walkCopy] at h2 ⊢
    exact h c h1 h2 h3
  | cons files rest ih =>
    intro st h c h1 h2 h3
    cases hs : stop st.polls with
    | true =>
      simp only [walkCopy, hs, if_true] at h2 ⊢
      exact h c h1 h2 h3
    | false =>
      simp only [walkCopy, hs, Bool.false_eq_true, if_false] at h2 ⊢
      have hinner := copyFiles_events_complete stop total files
        ({ st with polls := st.polls + 1 }) h
      rcases hcont : (copyFiles stop total files { st with polls := st.polls + 1 }).2
          with _ | _
      · rw [hcont] at h2
        simp only [Bool.false_eq_true, if_false] at h2 ⊢
        exact hinner c h1 h2 h3
      · rw [hcont] at h2
        simp only [eq_self_iff_true, if_true] at h2 ⊢
        exact ih _ hinner c h1 h2 h3

theorem walkCopy_no_stop (stop : Nat → Bool) (total : Nat)
    (hstop : ∀ k, stop k = false) :
    ∀ (dirs : List (List Bool)) (st : WalkSt),
      (walkCopy stop total dirs st).2 = true
      ∧ (walkCopy stop total dirs st).1.copied
          + (walkCopy stop total dirs st).1.copyErrors
        = st.copied + st.copyErrors + (dirs.map List.length).sum := by
  intro dirs
  induction dirs with
  | nil =>
    intro st
    simp [walkCopy]
  | cons files rest ih =>
    intro st
    simp only [walkCopy, hstop st.polls, Bool.false_eq_true, if_false]
    have hfiles := copyFiles_no_stop stop total hstop files
      ({ st with polls := st.polls + 1 })
    rcases hcont : (copyFiles stop total files { st with polls := st.polls + 1 }).2
        with _ | _
    · rw [hcont] at hfiles
      simp at hfiles
    · simp only [if_true]
      refine ⟨(ih _).1, ?_⟩
      have h2 := (ih (copyFiles stop total files { st with polls := st.polls + 1 }).1).2
      rw [h2, hfiles.2]
      simp only [List.map_cons, List.sum_cons]
      omega

/-- The scoped unmount of `_extract_with_windows_mount`: on every path on
which a drive letter was obtained, the `finally` block issues exactly one
`Dismount-DiskImage`. -/
theorem mount_mounted_unmount (env : MountEnv) :
    (extractWithWindowsMount env).mounted = true →
    (extractWithWindowsMount env).unmountsIssued = 1 := by
  simp only [extractWithWindowsMount]
  split
  · intro h
    simp at h
  · split
    · intro h
      simp at h
    · intro _
      rfl

/-! ## Strategy-level lemmas -/

theorem sevenZip_no_line_after_stop (env : SevenZipEnv) :
    ∀ k ∈ (extractWith7zip env).processedAt, env.stop k = false := by
  unfold extractWith7zip
  dsimp only
  split
  · intro k hk
    simp at hk
  · split
    · intro k hk
      exact monitor_processed_stop_false env.stop env.lines 0 k hk
    · split
      · intro k hk
        exact monitor_processed_stop_false env.stop env.lines 0 k hk
      · intro k hk
        exact monitor_processed_stop_false env.stop env.lines 0 k hk

theorem sevenZip_stop_observed (env : SevenZipEnv) :
    (∃ k, k < (extractWith7zip env).polls ∧ env.stop k = true) →
    (extractWith7zip env).ret = false ∧ (extractWith7zip env).terminated = true := by
  intro hex
  obtain ⟨k, hk, hs⟩ := hex
  cases hr : env.raise0 with
  | true =>
    exfalso
    have hp : (extractWith7zip env).polls = 0 := by
      simp [extractWith7zip, hr]
    rw [hp] at hk
    exact Nat.not_lt_zero k hk
  | false =>
    cases hm : (monitorProcess env.stop env.lines 0).1 with
    | false =>
      constructor <;> simp [extractWith7zip, hr, hm]
    | true =>
      exfalso
      have hall := monitor_completed_stop_false env.stop env.lines 0
        (fun j hj => absurd hj (Nat.not_lt_zero j)) hm
      have hp : (extractWith7zip env).polls = (monitorProcess env.stop env.lines 0).2.1 := by
        cases he : env.exitCode == 0 <;> simp [extractWith7zip, hr, hm, he]
      rw [hp] at hk
      rw [hall k hk] at hs
      cases hs

theorem mount_no_copy_after_stop (env : MountEnv) :
    ∀ k ∈ (extractWithWindowsMount env).attempted, env.stop k = false := by
  unfold extractWithWindowsMount
  dsimp only
  split
  · intro k hk
    simp at hk
  · split
    · intro k hk
      simp at hk
    · intro k hk
      refine walkCopy_attempted_stop_false env.stop _ env.dirs walkInit ?_ k hk
      intro j hj
      simp [walkInit] at hj

theorem mount_stop_observed (env : MountEnv) :
    (∃ k, k < (extractWithWindowsMount env).polls ∧ env.stop k = true) →
    (extractWithWindowsMount env).ret = false := by
  intro hex
  obtain ⟨k, hk, hs⟩ := hex
  by_contra hret
  have hret' : (extractWithWindowsMount env).ret = true := by
    cases h : (extractWithWindowsMount env).ret
    · exact absurd h hret
    · rfl
  revert hk hret'
  unfold extractWithWindowsMount
  dsimp only
  split
  · intro hk _
    simp at hk
  · split
    · intro hk _
      simp at hk
    · intro hk hret'
      have hall := walkCopy_completed_stop_false env.stop (totalFilesOf env.dirs)
        env.dirs walkInit (by intro j hj; simp [walkInit] at hj) hret' k hk
      rw [hall] at hs
      cases hs

/-! ## Claim theorems -/

/-- Claim C3: for every execution of the mount-and-copy extraction strategy
in which the mount succeeds (a non-empty drive letter is obtained), exactly
one unmount is issued before the strategy returns, on every exit path —
normal success, any raised error, and cancellation via the stop flag. -/
theorem c3_mount_paired_with_single_unmount :
    ∀ env : MountEnv, (extractWithWindowsMount env).mounted = true →
      (extractWithWindowsMount env).unmountsIssued = 1 :=
  fun env h => mount_mounted_unmount env h

theorem c3_witness :
    (extractWithWindowsMount c3WitnessEnv).mounted = true
    ∧ (extractWithWindowsMount c3WitnessEnv).unmountsIssued = 1 :=
  ⟨by decide, c3_mount_paired_with_single_unmount c3WitnessEnv (by decide)⟩

/-- Claim C4: once the cancellation flag is set, an extraction strategy
performs no further unit of work — the 7-Zip strategy processes no
subprocess output line at a poll where the flag is set, and if the flag is
observed during its run it terminates the subprocess and returns false;
the mount-and-copy strategy attempts no file copy at a poll where the flag
is set, returns false when the flag is observed, and still issues its one
unmount whenever a mount was acquired. -/
theorem c4_cancellation_stops_within_one_unit :
    ∀ (e1 : SevenZipEnv) (e2 : MountEnv),
      (∀ k ∈ (extractWith7zip e1).processedAt, e1.stop k = false)
      ∧ ((∃ k, k < (extractWith7zip e1).polls ∧ e1.stop k = true) →
          (extractWith7zip e1).ret = false ∧ (extractWith7zip e1).terminated = true)
      ∧ (∀ k ∈ (extractWithWindowsMount e2).attempted, e2.stop k = false)
      ∧ ((∃ k, k < (extractWithWindowsMount e2).polls ∧ e2.stop k = true) →
          (extractWithWindowsMount e2).ret = false)
      ∧ ((extractWithWindowsMount e2).mounted = true →
          (extractWithWindowsMount e2).unmountsIssued = 1) :=
  fun e1 e2 =>
    ⟨sevenZip_no_line_after_stop e1, sevenZip_stop_observed e1,
     mount_no_copy_after_stop e2, mount_stop_observed e2,
     mount_mounted_unmount e2⟩

theorem c4_witness :
    (extractWith7zip c4WitnessSzEnv).ret = false
    ∧ (extractWith7zip c4WitnessSzEnv).terminated = true
    ∧ (extractWithWindowsMount c4WitnessWmEnv).ret = false
    ∧ (extractWithWindowsMount c4WitnessWmEnv).unmountsIssued = 1 := by
  have H := c4_cancellation_stops_within_one_unit c4WitnessSzEnv c4WitnessWmEnv
  exact ⟨(H.2.1 ⟨0, by decide, rfl⟩).1, (H.2.1 ⟨0, by decide, rfl⟩).2,
         H.2.2.2.1 ⟨0, by decide, rfl⟩, H.2.2.2.2 (by decide)⟩

theorem sevenZip_ret_true_iff (env : SevenZipEnv) :
    (extractWith7zip env).ret = true ↔
      (env.raise0 = false ∧ (monitorProcess env.stop env.lines 0).1 = true
        ∧ env.exitCode = 0) := by
  unfold extractWith7zip
  dsimp only
  split
  · simp_all
  · split
    · simp_all
    · split
      · simp_all
      · simp_all

theorem mount_ret_true_implies (env : MountEnv) :
    (extractWithWindowsMount env).ret = true →
      env.mountProcFails = false ∧ (pyStrip env.mountStdout).data.isEmpty = false := by
  unfold extractWithWindowsMount
  dsimp only
  split
  · intro h
    simp at h
  · split
    · intro h
      simp at h
    · intro _
      constructor
      · simp_all
      · simp_all

/-- Claim C7: each extraction strategy returns a boolean and never
propagates an exception (every modelled run produces a result record);
every internal error — an exception before the subprocess loop, a non-zero
archiver exit, a mount subprocess failure, an empty drive letter — yields
the return value false together with a message on the logging channel, and
success is only reported when no such error occurred. -/
theorem c7_strategies_absorb_failures :
    ∀ (e1 : SevenZipEnv) (e2 : MountEnv),
      ((extractWith7zip e1).ret = true → e1.raise0 = false ∧ e1.exitCode = 0)
      ∧ (e1.raise0 = true →
          (extractWith7zip e1).ret = false
          ∧ (extractWith7zip e1).errorLog.isSome = true)
      ∧ (e1.raise0 = false → (monitorProcess e1.stop e1.lines 0).1 = true →
          e1.exitCode ≠ 0 →
          (extractWith7zip e1).ret = false
          ∧ (extractWith7zip e1).errorLog.isSome = true)
      ∧ ((extractWithWindowsMount e2).ret = true →
          e2.mountProcFails = false ∧ (pyStrip e2.mountStdout).data.isEmpty = false)
      ∧ (e2.mountProcFails = true →
          (extractWithWindowsMount e2).ret = false
          ∧ (extractWithWindowsMount e2).errorLog.isSome = true)
      ∧ (e2.mountProcFails = false → (pyStrip e2.mountStdout).data.isEmpty = true →
          (extractWithWindowsMount e2).ret = false
          ∧ (extractWithWindowsMount e2).errorLog.isSome = true) := by
  intro e1 e2
  refine ⟨?_, ?_, ?_, mount_ret_true_implies e2, ?_, ?_⟩
  · intro h
    obtain ⟨a, _, c⟩ := (sevenZip_ret_true_iff e1).mp h
    exact ⟨a, c⟩
  · intro h
    constructor <;> simp [extractWith7zip, h]
  · intro h1 h2 h3
    constructor <;> simp [extractWith7zip, h1, h2, h3]
  · intro h
    constructor <;> simp [extractWithWindowsMount, h]
  · intro h1 h2
    constructor <;> simp [extractWithWindowsMount, h1, h2]

theorem c7_witness :
    (extractWith7zip c7WitnessSzEnv).ret = false
    ∧ (extractWith7zip c7WitnessSzEnv).errorLog.isSome = true
    ∧ (extractWithWindowsMount c7WitnessWmEnv).ret = false
    ∧ (extractWithWindowsMount c7WitnessWmEnv).errorLog.isSome = true := by
  have H := c7_strategies_absorb_failures c7WitnessSzEnv c7WitnessWmEnv
  have A := H.2.2.1 rfl (by decide) (by decide)
  have B := H.2.2.2.2.1 rfl
  exact ⟨A.1, A.2, B.1, B.2⟩

/-- Claim C8: in a mount-and-copy extraction with a successful mount, every
emitted progress event carries the integer part of
`copiedFiles / totalFiles * 100` and occurs exactly when `copiedFiles` is a
multiple of 100 or equals `totalFiles` (every such count is reported and no
other), and per-file copy errors are logged and skipped without aborting
the copy loop (an uncancelled run still returns true, having attempted
every file). -/
theorem c8_mount_copy_progress :
    ∀ env : MountEnv,
      env.mountProcFails = false →
      (pyStrip env.mountStdout).data.isEmpty = false →
      (∀ ce ∈ (extractWithWindowsMount env).progressEvents,
          ce.2 = pyProgress ce.1 (totalFilesOf env.dirs)
          ∧ (ce.1 % 100 = 0 ∨ ce.1 = totalFilesOf env.dirs))
      ∧ (∀ c, 1 ≤ c → c ≤ (extractWithWindowsMount env).copied →
          (c % 100 = 0 ∨ c = totalFilesOf env.dirs) →
          (c, pyProgress c (totalFilesOf env.dirs))
            ∈ (extractWithWindowsMount env).progressEvents)
      ∧ ((∀ k, env.stop k = false) →
          (extractWithWindowsMount env).ret = true
          ∧ (extractWithWindowsMount env).copied
              + (extractWithWindowsMount env).copyErrors = totalFilesOf env.dirs) := by
  intro env hm hne
  simp only [extractWithWindowsMount, hm, Bool.false_eq_true, if_false, hne]
  refine ⟨?_, ?_, ?_⟩
  · exact walkCopy_events_sound env.stop _ env.dirs walkInit
      (by intro ce hce; simp [walkInit] at hce)
  · exact walkCopy_events_complete env.stop _ env.dirs walkInit
      (by intro c h1 h2 h3; exfalso; simp [walkInit] at h2; omega)
  · intro hstop
    refine ⟨(walkCopy_no_stop env.stop (totalFilesOf env.dirs) hstop env.dirs walkInit).1, ?_⟩
    have h2 := (walkCopy_no_stop env.stop (totalFilesOf env.dirs) hstop env.dirs walkInit).2
    simpa [walkInit, totalFilesOf] using h2

theorem c8_witness :
    (3, pyProgress 3 (totalFilesOf c8WitnessEnv.dirs))
        ∈ (extractWithWindowsMount c8WitnessEnv).progressEvents
    ∧ (extractWithWindowsMount c8WitnessEnv).ret = true
    ∧ (extractWithWindowsMount c8WitnessEnv).copied
        + (extractWithWindowsMount c8WitnessEnv).copyErrors
      = totalFilesOf c8WitnessEnv.dirs := by
  have H := c8_mount_copy_progress c8WitnessEnv rfl rfl
  exact ⟨H.2.1 3 (by decide) (by decide) (by decide),
         (H.2.2 (fun _ => rfl)).1, (H.2.2 (fun _ => rfl)).2⟩

theorem createOscdimg_true_iff (env : CreateEnv) :
    createOscdimg env = true ↔
      (env.oscRaise = false ∧ (monitorProcess env.stop env.oscLines 0).1 = true
        ∧ env.oscExit = 0) := by
  unfold createOscdimg
  dsimp only
  split
  · simp_all
  · split
    · simp_all
    · split
      · simp_all
      · simp_all

/-- Claim C1 counterexample: with oscdimg present and its subprocess
exiting with code 137, `create_iso` returns false having run only the
oscdimg tier — no fallback to the scripted or raw-archive tier occurs,
contradicting the claimed cascade on native-masterer failure. -/
theorem c1_counterexample_exit137_no_fallback :
    (createIso c1CounterEnv).ret = false
    ∧ (createIso c1CounterEnv).tiers = [CreateTier.oscdimg] := by
  decide

/-- Claim C1 (amended): when the native masterer (oscdimg) is present its
result is final — `create_iso` runs only the oscdimg tier, succeeding
exactly when no internal exception occurs, the subprocess is not cancelled,
and it exits with code 0; any non-zero exit (for example 137) yields false
with no fallback.  The scripted tier (and through it the raw-archive tier)
runs only when oscdimg is absent. -/
theorem c1_amended_masterer_result_final :
    ∀ env : CreateEnv, env.oscdimgFound = true →
      (createIso env).tiers = [CreateTier.oscdimg]
      ∧ ((createIso env).ret = true ↔
          (env.oscRaise = false ∧ (monitorProcess env.stop env.oscLines 0).1 = true
            ∧ env.oscExit = 0)) := by
  intro env h
  constructor
  · simp [createIso, h]
  · have hret : (createIso env).ret = createOscdimg env := by
      simp [createIso, h]
    rw [hret]
    exact createOscdimg_true_iff env

theorem c1_witness :
    (createIso c1WitnessEnv).ret = true
    ∧ (createIso c1WitnessEnv).tiers = [CreateTier.oscdimg] := by
  have H := c1_amended_masterer_result_final c1WitnessEnv rfl
  exact ⟨H.2.mpr ⟨rfl, rfl, rfl⟩, H.1⟩

/-- Claim C2: over one successful, uncancelled build with the controller's
20/10/10/50/10 stage weights, the progress values reported to
`update_progress` are `0,20,30,40,50,55,...,95,90,100`: every value is at
most 100, but the sequence is not monotonically non-decreasing — the
rebuild stage's internal reports climb to 95 and the controller then
reports its completed-weight total 90.  This evaluates the code at the
failing input of the claim. -/
theorem c2_progress_trace_not_monotone :
    buildTrace = [0, 20, 30, 40, 50, 55, 60, 65, 70, 75, 80, 85, 90, 95, 90, 100]
    ∧ nonDecr buildTrace = false
    ∧ (∀ x ∈ buildTrace, x ≤ 100) := by
  decide

/-- Claim C5 counterexample: with both tools absent and the scripted
PowerShell tier succeeding, extraction does select mount-and-copy, but
creation selects the scripted PowerShell tier — the raw-archive fallback is
not invoked — and returns true.  This contradicts the claim that creation
selects the raw-archive fallback in this host state. -/
theorem c5_counterexample_powershell_selected :
    (extractIso c5CounterExtractEnv).2 = ExtStrategy.windowsMount
    ∧ (createIso c5CounterCreateEnv).tiers = [CreateTier.powershell]
    ∧ CreateTier.basic ∉ (createIso c5CounterCreateEnv).tiers
    ∧ (createIso c5CounterCreateEnv).ret = true := by
  decide

/-- Claim C5 (amended): when neither 7-Zip nor oscdimg is found, extraction
selects the mount-and-copy strategy and creation selects the scripted
PowerShell tier first; the raw-archive fallback runs only if the PowerShell
tier raises or its subprocess exits non-zero.  Absent other errors (the
mount succeeds, no cancellation, PowerShell exits 0), both operations
return true, so the job reaches Done rather than Failed. -/
theorem c5_amended_fallback_selection :
    ∀ (eEnv : ExtractSelectEnv) (cEnv : CreateEnv),
      eEnv.sevenZipFound = false → cEnv.oscdimgFound = false →
      (extractIso eEnv).2 = ExtStrategy.windowsMount
      ∧ (createIso cEnv).tiers.head? = some CreateTier.powershell
      ∧ (cEnv.psRaise = false → (monitorProcess cEnv.stop cEnv.psLines 0).1 = true →
          cEnv.psExit = 0 →
          (createIso cEnv).ret = true ∧ (createIso cEnv).tiers = [CreateTier.powershell])
      ∧ ((cEnv.psRaise = true
          ∨ ((monitorProcess cEnv.stop cEnv.psLines 0).1 = true ∧ cEnv.psExit ≠ 0)) →
          CreateTier.basic ∈ (createIso cEnv).tiers)
      ∧ (eEnv.wm.mountProcFails = false →
          (pyStrip eEnv.wm.mountStdout).data.isEmpty = false →
          (∀ k, eEnv.wm.stop k = false) →
          (extractIso eEnv).1 = true) := by
  intro eEnv cEnv hE hC
  refine ⟨?_, ?_, ?_, ?_, ?_⟩
  · simp [extractIso, hE]
  · simp only [createIso, hC, Bool.false_eq_true, if_false]
    unfold createPowershell
    dsimp only
    split
    · rfl
    · split
      · rfl
      · split
        · rfl
        · rfl
  · intro h1 h2 h3
    refine ⟨?_, ?_⟩ <;> simp [createIso, hC, createPowershell, h1, h2, h3]
  · intro h
    cases hr : cEnv.psRaise with
    | true => simp [createIso, hC, createPowershell, hr]
    | false =>
      rcases h with h1 | ⟨h2a, h2b⟩
      · rw [hr] at h1
        cases h1
      · simp [createIso, hC, createPowershell, hr, h2a, h2b]
  · intro hm hne hstop
    simp only [extractIso, hE, Bool.false_eq_true, if_false]
    simp only [extractWithWindowsMount, hm, Bool.false_eq_true, if_false, hne]
    exact (walkCopy_no_stop eEnv.wm.stop (totalFilesOf eEnv.wm.dirs) hstop
      eEnv.wm.dirs walkInit).1

theorem c5_witness :
    (extractIso c5CounterExtractEnv).1 = true
    ∧ (createIso c5CounterCreateEnv).ret = true
    ∧ (createIso c5CounterCreateEnv).tiers = [CreateTier.powershell] := by
  have H := c5_amended_fallback_selection c5CounterExtractEnv c5CounterCreateEnv rfl rfl
  exact ⟨H.2.2.2.2 rfl rfl (fun _ => rfl),
         (H.2.2.1 rfl rfl rfl).1, (H.2.2.1 rfl rfl rfl).2⟩

theorem buildThread_report_cases (stop : Nat → Bool) :
    (buildThread stop).stopObserved = false
    ∨ (buildThread stop).report = buildFailReport "Failed to extract ISO"
    ∨ (buildThread stop).report = buildFailReport "Build process stopped by user"
    ∨ (buildThread stop).report = buildFailReport "Failed to rebuild ISO" := by
  unfold buildThread
  dsimp only
  split
  · right; left; rfl
  · split
    · right; right; left; rfl
    · split
      · right; right; left; rfl
      · split
        · right; right; left; rfl
        · split
          · right; right; right; rfl
          · left; rfl

/-- Claim C6 counterexample: a build stopped via the cancellation flag (set
before the first poll) is reported through the error path — the
`"Build Failed"` error dialog of the generic exception handler — so the
deliberate stop is surfaced as an error, contradicting the claim. -/
theorem c6_counterexample_stop_reported_as_error :
    (buildThread (fun _ => true)).stopObserved = true
    ∧ reportHasError (buildThread (fun _ => true)).report = true
    ∧ (buildThread (fun _ => true)).report
        = Report.errorDialog "Build Failed"
            "Failed to build custom ISO: Failed to extract ISO" := by
  decide

/-- Claim C6 (amended): every build stopped via the cancellation flag is
reported through the failure path — an error dialog titled "Build Failed"
whose message is the stage-failure text ("Failed to extract ISO" or
"Failed to rebuild ISO") when the flag is observed inside a stage, or
"Build process stopped by user" when observed at an inter-stage check; no
distinct non-error Cancelled outcome exists. -/
theorem c6_amended_stop_surfaced_as_failure :
    ∀ stop : Nat → Bool, (buildThread stop).stopObserved = true →
      reportHasError (buildThread stop).report = true
      ∧ ((buildThread stop).report = buildFailReport "Failed to extract ISO"
        ∨ (buildThread stop).report = buildFailReport "Build process stopped by user"
        ∨ (buildThread stop).report = buildFailReport "Failed to rebuild ISO") := by
  intro stop h
  rcases buildThread_report_cases stop with h0 | hr | hr | hr
  · rw [h0] at h
    cases h
  · exact ⟨by rw [hr]; rfl, Or.inl hr⟩
  · exact ⟨by rw [hr]; rfl, Or.inr (Or.inl hr)⟩
  · exact ⟨by rw [hr]; rfl, Or.inr (Or.inr hr)⟩

theorem c6_witness :
    reportHasError (buildThread (fun k => 5 ≤ k)).report = true :=
  (c6_amended_stop_surfaced_as_failure (fun k => 5 ≤ k) (by decide)).1

theorem strContains_etfs_efi : strContains (pyLower "etfsboot.com") "efi" = false := by
  decide

theorem strContains_efisys_efi : strContains (pyLower "efisys.bin") "efi" = true := by
  decide

/-- Claim C9: the oscdimg command line always contains `-m`, `-o`, `-u2`
and `-l<label>`; the boot candidates are probed as `etfsboot.com` then
`efisys.bin`, only the first existing one contributes `-b <path>`, and the
EFI flags `-e -u1` are added exactly when the chosen boot file's lowered
name contains "efi" (false for `etfsboot.com`, true for `efisys.bin`). -/
theorem c9_oscdimg_command_flags :
    ∀ (p s o l : String) (bootFileFound : String → Bool),
      "-m" ∈ oscdimgCmd p s o l bootFileFound
      ∧ "-o" ∈ oscdimgCmd p s o l bootFileFound
      ∧ "-u2" ∈ oscdimgCmd p s o l bootFileFound
      ∧ ("-l" ++ l) ∈ oscdimgCmd p s o l bootFileFound
      ∧ oscdimgCmd p s o l bootFileFound
          = [p, "-m", "-o", "-u2", "-l" ++ l]
              ++ oscdimgBootArgs s bootFileFound ++ [s, o]
      ∧ (bootFileFound "etfsboot.com" = true →
          oscdimgBootArgs s bootFileFound = ["-b", pyJoin3 s "boot" "etfsboot.com"])
      ∧ (bootFileFound "etfsboot.com" = false → bootFileFound "efisys.bin" = true →
          oscdimgBootArgs s bootFileFound
            = ["-b", pyJoin3 s "boot" "efisys.bin", "-e", "-u1"])
      ∧ (bootFileFound "etfsboot.com" = false → bootFileFound "efisys.bin" = false →
          oscdimgBootArgs s bootFileFound = [])
      ∧ strContains (pyLower "etfsboot.com") "efi" = false
      ∧ strContains (pyLower "efisys.bin") "efi" = true := by
  intro p s o l bootFileFound
  refine ⟨?_, ?_, ?_, ?_, rfl, ?_, ?_, ?_, strContains_etfs_efi, strContains_efisys_efi⟩
  · simp [oscdimgCmd]
  · simp [oscdimgCmd]
  · simp [oscdimgCmd]
  · simp [oscdimgCmd]
  · intro h1
    simp [oscdimgBootArgs, bootFileNames, bootArgsGo, h1, strContains_etfs_efi]
  · intro h1 h2
    simp [oscdimgBootArgs, bootFileNames, bootArgsGo, h1, h2, strContains_efisys_efi]
  · intro h1 h2
    simp [oscdimgBootArgs, bootFileNames, bootArgsGo, h1, h2]

theorem c9_witness :
    oscdimgBootArgs "S" c9WitnessBootFound
      = ["-b", pyJoin3 "S" "boot" "efisys.bin", "-e", "-u1"]
    ∧ "-u2" ∈ oscdimgCmd "P" "S" "O" "L" c9WitnessBootFound := by
  have H := c9_oscdimg_command_flags "P" "S" "O" "L" c9WitnessBootFound
  exact ⟨H.2.2.2.2.2.2.1 (by decide) (by decide), H.2.2.1⟩

/-- Claim C10: every failed `download_file` invocation — including the
cancellation exception raised inside the progress hook — returns false, and
the unlink in the handler removes any partly written file at the
destination, so no leftover download artifact remains. -/
theorem c10_failed_download_no_leftover :
    ∀ env : DlEnv, (env.stopDuringHook = true ∨ env.urlOk = false) →
      (downloadFile env).ret = false ∧ (downloadFile env).destLeftover = false := by
  intro env h
  unfold downloadFile
  have hcond : (env.stopDuringHook = false && env.urlOk = true) = false := by
    rcases h with h | h <;> simp [h]
  simp only [hcond, Bool.false_eq_true, if_false]
  refine ⟨trivial, ?_⟩
  cases henv : env.leftoverWritten <;> simp [henv]

theorem c10_witness :
    (downloadFile c10WitnessEnv).ret = false
    ∧ (downloadFile c10WitnessEnv).destLeftover = false :=
  c10_failed_download_no_leftover c10WitnessEnv (Or.inl rfl)

end RTABuilder
